import Mathlib

/-!
# Sponsorship Validation & Relay Engine — shallow embedding

This file embeds the gas-sponsorship relay backend (the live
`sponsorshipController` with `prepareFeeTransaction`, `sponsorTransaction`
and `getCurrentFeeRates`, plus `utils/feeCalculator.ts`) as executable Lean
definitions and proves the spec's claims about them.

Conventions of the embedding:
* public keys are their base58 strings (`Pubkey := String`; equality of
  strings mirrors `toBase58()` comparison in the source);
* a decoded `VersionedTransaction` message is modelled by `TxMessage`:
  the static account-key table, the number of required signatures
  (`message.isAccountSigner i` is `i < numRequiredSignatures` in web3.js),
  and the compiled instruction list (program-id index, account-key
  indexes, raw data bytes);
* JavaScript numbers that hold lamport amounts are modelled as `Nat`/`ℤ`,
  and the float arithmetic of the fee formulas (`Math.ceil`, `Math.floor`,
  percentages) as exact rational arithmetic over `ℚ`;
* the network side effects of the controller (signing and submitting) are
  recorded as an explicit event list returned next to the outcome, with
  events appended exactly where the source calls `transaction.sign` and
  `connection.sendTransaction`.
-/

namespace SponsorEngine

set_option maxRecDepth 20000

/-- Base58-rendered public key, as compared by `toBase58()` in the source. -/
abbrev Pubkey := String

/-- The System Program id, `'11111111111111111111111111111111'` in the source. -/
def systemProgramId : Pubkey := "11111111111111111111111111111111"

/-- One compiled instruction of a decoded versioned transaction message:
`programIdIndex`, `accountKeyIndexes` and `data` mirror the fields read by
the controller from `message.compiledInstructions`. -/
structure CompiledIx where
  programIdIndex : Nat
  accountKeyIndexes : List Nat
  data : List Nat
deriving DecidableEq, Repr

/-- The decoded message view the controller reads: the ordered static
account-key table (`message.getAccountKeys()`), the signer count of the
header (`isAccountSigner i ↔ i < numRequiredSignatures`) and the compiled
instructions. -/
structure TxMessage where
  accountKeys : List Pubkey
  numRequiredSignatures : Nat
  instructions : List CompiledIx
deriving DecidableEq, Repr

/-- `accountKeys.get(i)` of web3.js: `undefined` (here `none`) when the
index is outside the key table. -/
def getKey (msg : TxMessage) (i : Nat) : Option Pubkey :=
  msg.accountKeys[i]?

/-- `message.isAccountSigner(i)`: true exactly when `i` is below the
header's required-signature count. -/
def isAccountSigner (msg : TxMessage) (i : Nat) : Bool :=
  i < msg.numRequiredSignatures

/-- Little-endian byte-list decoding (each entry one byte). -/
def leU64 : List Nat → Nat
  | [] => 0
  | b :: bs => b + 256 * leU64 bs

/-- `extractTransferAmount(data)`: when the buffer is at least 12 bytes and
the discriminator byte is 2, read the little-endian u64 at offset 4,
otherwise return 0. -/
def extractTransferAmount (data : List Nat) : Nat :=
  if 12 ≤ data.length ∧ data[0]? = some 2 then leU64 ((data.drop 4).take 8)
  else 0

/-- The 8 little-endian bytes of `n` (mod 2^64), as produced when web3.js
encodes the `lamports` field of a System transfer. -/
def encodeLeU64 (n : Nat) : List Nat :=
  [n % 256, n / 256 % 256, n / 256 ^ 2 % 256, n / 256 ^ 3 % 256,
   n / 256 ^ 4 % 256, n / 256 ^ 5 % 256, n / 256 ^ 6 % 256, n / 256 ^ 7 % 256]

/-- Instruction data of `SystemProgram.transfer`: the 4-byte little-endian
discriminator 2 followed by the little-endian u64 lamport amount. -/
def transferData (lamports : Nat) : List Nat :=
  2 :: 0 :: 0 :: 0 :: encodeLeU64 lamports

/-! ## Fee calculator (`utils/feeCalculator.ts`) -/

/-- The `FeeData` record produced by `getCurrentFeeData`. -/
structure FeeData where
  gasFeeLamports : Nat
  serviceFeePercentage : ℚ
  solPriceUsd : Option ℚ
deriving DecidableEq, Repr

/-- `calculateServiceFee(transferAmountLamports, feePercentage)`:
`Math.max(Math.ceil(amount * (pct / 100)), 5000)`. -/
def calculateServiceFee (transferAmountLamports : ℚ) (feePercentage : ℚ) : ℤ :=
  max ⌈transferAmountLamports * (feePercentage / 100)⌉ 5000

/-- The fee breakdown returned by `calculateAllFees`. -/
structure FeeInfo where
  originalTransferAmount : ℚ
  serviceFeePercentage : ℚ
  serviceFeeAmount : ℤ
  gasFeeReimbursement : Nat
  totalFeeRequired : ℤ
deriving DecidableEq, Repr

/-- `calculateAllFees(transferAmountLamports)` against the quote active at
validation time: service fee from `calculateServiceFee` and
`totalFeeRequired = serviceFeeAmount + gasFeeLamports`. -/
def calculateAllFees (transferAmountLamports : ℚ) (fd : FeeData) : FeeInfo :=
  let serviceFeeAmount := calculateServiceFee transferAmountLamports fd.serviceFeePercentage
  { originalTransferAmount := transferAmountLamports
    serviceFeePercentage := fd.serviceFeePercentage
    serviceFeeAmount := serviceFeeAmount
    gasFeeReimbursement := fd.gasFeeLamports
    totalFeeRequired := serviceFeeAmount + fd.gasFeeLamports }

/-- The fee-oracle cache: `feeDataCache` and `lastFeeDataUpdate` module
state of `feeCalculator.ts`. -/
structure OracleState where
  feeDataCache : Option FeeData
  lastFeeDataUpdate : Nat
deriving DecidableEq, Repr

/-- `CACHE_DURATION_MS = 5 * 60 * 1000`. -/
def CACHE_DURATION_MS : Nat := 5 * 60 * 1000

/-- `getAdjustedServiceFeePercentage(solPriceUsd)`: the default percentage
when the price is unavailable, otherwise the fixed pricing bands. -/
def getAdjustedServiceFeePercentage (defaultPct : ℚ) (solPriceUsd : Option ℚ) : ℚ :=
  match solPriceUsd with
  | none => defaultPct
  | some p => if p > 100 then 3 / 10 else if p < 20 then 7 / 10 else 1 / 2

/-- `getCurrentFeeData()`. The values the network would deliver on a
refresh (`estimateTransactionFee` and `getSolanaPrice`) and `Date.now()`
are passed as parameters; the function returns the quote together with the
updated cache state. A fresh cached quote (age below
`CACHE_DURATION_MS`) is returned unchanged; otherwise the quote is
recomputed and the cache replaced. -/
def getCurrentFeeData (gasEstimate : Nat) (price : Option ℚ) (defaultPct : ℚ)
    (now : Nat) (st : OracleState) : FeeData × OracleState :=
  let fd : FeeData :=
    { gasFeeLamports := gasEstimate
      serviceFeePercentage := getAdjustedServiceFeePercentage defaultPct price
      solPriceUsd := price }
  let refreshed : FeeData × OracleState :=
    (fd, { feeDataCache := some fd, lastFeeDataUpdate := now })
  match st.feeDataCache with
  | some cached =>
      if now - st.lastFeeDataUpdate < CACHE_DURATION_MS then (cached, st)
      else refreshed
  | none => refreshed

/-! ## Sponsorship controller (`sponsorshipController`, fee-aware version) -/

/-- The startup configuration of the controller module: `FEE_PAYER_ADDRESS`
and `FEE_COLLECTION_ADDRESS`. -/
structure SponsorConfig where
  feePayerAddress : Pubkey
  feeCollectionAddress : Pubkey
deriving DecidableEq, Repr

/-- The module initialisation: both branches of the startup `try/catch` set
`feeCollectionWallet = feePayerWallet`, so both addresses are rendered from
the same wallet public key. -/
def initSponsorConfig (walletPublicKey : Pubkey) : SponsorConfig :=
  { feePayerAddress := walletPublicKey
    feeCollectionAddress := walletPublicKey }

/-- The effects the controller can perform after validation, in order. -/
inductive SpEvent where
  /-- `transaction.sign([feePayerWallet])` -/
  | sponsorSigned
  /-- `connection.sendTransaction(transaction, ...)` -/
  | sentToNetwork
deriving DecidableEq, Repr

/-- The typed outcome of `sponsorTransaction`. Rejections carry the payload
the JSON error response reports. -/
inductive Outcome where
  /-- 403 `'Invalid fee payer in transaction'` with expected/received. -/
  | invalidFeePayer (expected : Pubkey) (received : Option Pubkey)
  /-- 403 `'Transaction attempts to transfer funds from fee payer'`. -/
  | unauthorizedSponsorDebit
  /-- 403 `'Transaction not signed by sender'`. -/
  | unsignedSender
  /-- 403 `'Missing fee payment'`; the details string reports the expected
  total fee. -/
  | missingFeePayment (expectedTotal : ℤ)
  /-- 403 `'Insufficient fee payment'`; the details string reports the paid
  amount and the expected total fee. -/
  | insufficientFeePayment (paid : Nat) (expectedTotal : ℤ)
  /-- 200 success with the detected transfer amount and the fee paid. -/
  | submitted (transferAmount feePaid : Nat)
deriving DecidableEq, Repr

/-- The HTTP status the controller responds with for each outcome. -/
def httpStatus : Outcome → Nat
  | .submitted _ _ => 200
  | _ => 403

/-- The mutable locals of the controller's instruction loop:
`transferAmount`, `senderPublicKey`, `recipientPublicKey`,
`feePaymentFound`, `feePaymentAmount`. -/
structure ScanState where
  transferAmount : Nat
  senderPublicKey : Option Pubkey
  recipientPublicKey : Option Pubkey
  feePaymentFound : Bool
  feePaymentAmount : Nat
deriving DecidableEq, Repr

/-- Loop locals at initialisation. -/
def initScanState : ScanState :=
  { transferAmount := 0
    senderPublicKey := none
    recipientPublicKey := none
    feePaymentFound := false
    feePaymentAmount := 0 }

deriving instance DecidableEq for Except

/-- One iteration of the controller's `for (const instruction of
message.compiledInstructions)` loop. `.error ()` models the early
`return res.status(403) ... 'Transaction attempts to transfer funds from
fee payer'`; every other path continues with the updated locals. -/
def scanInstruction (cfg : SponsorConfig) (msg : TxMessage) (st : ScanState)
    (ix : CompiledIx) : Except Unit ScanState :=
  match getKey msg ix.programIdIndex with
  | none => .ok st
  | some programId =>
    if programId = systemProgramId then
      if ix.data[0]? = some 2 then
        match ix.accountKeyIndexes[0]?.bind (getKey msg),
              ix.accountKeyIndexes[1]?.bind (getKey msg) with
        | some sender, some recipient =>
          let amount := extractTransferAmount ix.data
          if sender = cfg.feePayerAddress then
            .error ()
          else if recipient = cfg.feeCollectionAddress then
            .ok { st with feePaymentFound := true, feePaymentAmount := amount }
          else
            .ok { st with transferAmount := amount
                          senderPublicKey := some sender
                          recipientPublicKey := some recipient }
        | _, _ => .ok st
      else .ok st
    else .ok st

/-- The whole instruction loop: left-to-right, stopping at the first
sponsor-debit rejection. -/
def scanInstructions (cfg : SponsorConfig) (msg : TxMessage) :
    List CompiledIx → ScanState → Except Unit ScanState
  | [], st => .ok st
  | ix :: rest, st =>
    match scanInstruction cfg msg st ix with
    | .error e => .error e
    | .ok st2 => scanInstructions cfg msg rest st2

/-- The controller's sender-signature check: scan the key table for an
index whose key equals the recorded sender and which the message marks as
a signer; `false` when no sender was recorded. -/
def senderIsSigner (msg : TxMessage) (sender : Option Pubkey) : Bool :=
  match sender with
  | none => false
  | some s =>
    (List.range msg.accountKeys.length).any
      (fun i => (getKey msg i == some s) && isAccountSigner msg i)

/-- `sponsorTransaction` (one-step path) on an already decoded message,
against the fee quote active at validation time. Returns the outcome and
the list of effects performed, in order. -/
def sponsorTransaction (cfg : SponsorConfig) (quote : FeeData)
    (msg : TxMessage) : Outcome × List SpEvent :=
  match getKey msg 0 with
  | none => (.invalidFeePayer cfg.feePayerAddress none, [])
  | some feePayer =>
    if feePayer = cfg.feePayerAddress then
      match scanInstructions cfg msg msg.instructions initScanState with
      | .error _ => (.unauthorizedSponsorDebit, [])
      | .ok st =>
        if senderIsSigner msg st.senderPublicKey then
          let feeInfo := calculateAllFees (st.transferAmount : ℚ) quote
          let minAcceptableFee : ℤ := ⌊(feeInfo.totalFeeRequired : ℚ) * (95 / 100)⌋
          if st.feePaymentFound then
            if (st.feePaymentAmount : ℤ) < minAcceptableFee then
              (.insufficientFeePayment st.feePaymentAmount feeInfo.totalFeeRequired, [])
            else
              (.submitted st.transferAmount st.feePaymentAmount,
               [.sponsorSigned, .sentToNetwork])
          else
            (.missingFeePayment feeInfo.totalFeeRequired, [])
        else
          (.unsignedSender, [])
    else
      (.invalidFeePayer cfg.feePayerAddress (some feePayer), [])

/-! ## Predicates used to state the claims -/

/-- Proposition: instruction `ix` is recognised by the controller loop as a
System-Program transfer whose (resolved) sender is the sponsor fee payer.
This is the claim's notion of "a transfer instruction whose sender equals
the sponsor identity"; it does not ask the recipient index to resolve. -/
@[reducible] def mentionsSponsorDebit (cfg : SponsorConfig) (msg : TxMessage)
    (ix : CompiledIx) : Prop :=
  getKey msg ix.programIdIndex = some systemProgramId ∧
  ix.data[0]? = some 2 ∧
  ix.accountKeyIndexes[0]?.bind (getKey msg) = some cfg.feePayerAddress

/-- Proposition: instruction `ix` makes the controller loop return the
`UnauthorizedSponsorDebit` rejection: a System-Program transfer whose
sender resolves to the fee payer and whose recipient index also resolves
(the loop `continue`s before the debit check when either lookup fails). -/
@[reducible] def triggersSponsorDebit (cfg : SponsorConfig) (msg : TxMessage)
    (ix : CompiledIx) : Prop :=
  mentionsSponsorDebit cfg msg ix ∧
  (ix.accountKeyIndexes[1]?.bind (getKey msg)).isSome = true

/-- Decoding of a compiled instruction as the controller loop reads it:
`some (sender, recipient, amount)` when the instruction is a
System-Program transfer whose sender and recipient indexes both resolve,
`none` otherwise. -/
def decodeTransferIx (msg : TxMessage) (ix : CompiledIx) :
    Option (Pubkey × Pubkey × Nat) :=
  match getKey msg ix.programIdIndex with
  | none => none
  | some programId =>
    if programId = systemProgramId ∧ ix.data[0]? = some 2 then
      match ix.accountKeyIndexes[0]?.bind (getKey msg),
            ix.accountKeyIndexes[1]?.bind (getKey msg) with
      | some sender, some recipient =>
          some (sender, recipient, extractTransferAmount ix.data)
      | _, _ => none
    else none

/-- The transfers the controller loop treats as the user transfer: decoded
transfers whose recipient is not the fee-collection address. -/
def decodeUserTransfer (cfg : SponsorConfig) (msg : TxMessage)
    (ix : CompiledIx) : Option (Pubkey × Pubkey × Nat) :=
  match decodeTransferIx msg ix with
  | some (s, r, a) => if r = cfg.feeCollectionAddress then none else some (s, r, a)
  | none => none

/-- All user (non-fee-payment) transfers of a message, in instruction
order. -/
def userTransfers (cfg : SponsorConfig) (msg : TxMessage) :
    List (Pubkey × Pubkey × Nat) :=
  msg.instructions.filterMap (decodeUserTransfer cfg msg)

/-- Modelled from the spec: the service-fee formula as §4.3 words it,
`serviceFee = max(ceil(transferAmount * rate), floor_minimum)` with the
rate given in percent and the floor minimum 5000 lamports. Stated
separately from `calculateServiceFee` so the code can be compared against
the spec's formula. -/
def serviceFeeSpec (transferAmount rate : ℚ) : ℤ :=
  max ⌈transferAmount * rate / 100⌉ 5000

/-! ## Two-step prepare path (`prepareFeeTransaction`) -/

/-- An account meta of a high-level instruction (web3.js `AccountMeta`). -/
structure AccountMeta where
  pubkey : Pubkey
  isSigner : Bool
  isWritable : Bool
deriving DecidableEq, Repr

/-- A high-level instruction (web3.js `TransactionInstruction`). -/
structure TransactionIx where
  programId : Pubkey
  keys : List AccountMeta
  data : List Nat
deriving DecidableEq, Repr

/-- The instruction built by `SystemProgram.transfer({fromPubkey, toPubkey,
lamports})`: from is a writable signer, to is writable, and the data is
the transfer discriminator followed by the little-endian u64 amount. -/
def systemTransfer (fromPubkey toPubkey : Pubkey) (lamports : Nat) : TransactionIx :=
  { programId := systemProgramId
    keys := [{ pubkey := fromPubkey, isSigner := true, isWritable := true },
             { pubkey := toPubkey, isSigner := false, isWritable := true }]
    data := transferData lamports }

/-- Signer/writable/invoked flags collected per key during message
compilation (web3.js `CompiledKeys`). -/
structure KeyMeta where
  isSigner : Bool
  isWritable : Bool
  isInvoked : Bool
deriving DecidableEq, Repr

/-- Insert-or-merge into the insertion-ordered key-meta map
(`getOrInsertDefault` of web3.js `CompiledKeys`). -/
def upsertKeyMeta (m : List (Pubkey × KeyMeta)) (k : Pubkey)
    (f : KeyMeta → KeyMeta) : List (Pubkey × KeyMeta) :=
  match m with
  | [] => [(k, f { isSigner := false, isWritable := false, isInvoked := false })]
  | (k2, meta) :: rest =>
      if k2 = k then (k2, f meta) :: rest
      else (k2, meta) :: upsertKeyMeta rest k f

/-- `CompiledKeys.compile(instructions, payerKey)`: the payer is inserted
first as a writable signer, then every instruction's program id (invoked)
and account metas (signer/writable flags or-merged). -/
def compileKeyMetas (payer : Pubkey) (instructions : List TransactionIx) :
    List (Pubkey × KeyMeta) :=
  let m0 := upsertKeyMeta [] payer
    (fun km => { km with isSigner := true, isWritable := true })
  instructions.foldl (fun m ix =>
    let m1 := upsertKeyMeta m ix.programId (fun km => { km with isInvoked := true })
    ix.keys.foldl (fun m2 am =>
      upsertKeyMeta m2 am.pubkey (fun km =>
        { km with isSigner := km.isSigner || am.isSigner
                  isWritable := km.isWritable || am.isWritable })) m1) m0

/-- Static account keys of the compiled message: writable signers, then
readonly signers, then writable non-signers, then readonly non-signers,
preserving insertion order within each class (web3.js
`getMessageComponents`). -/
def staticAccountKeys (m : List (Pubkey × KeyMeta)) : List Pubkey :=
  (m.filter (fun p => p.2.isSigner && p.2.isWritable)).map Prod.fst ++
  (m.filter (fun p => p.2.isSigner && !p.2.isWritable)).map Prod.fst ++
  (m.filter (fun p => !p.2.isSigner && p.2.isWritable)).map Prod.fst ++
  (m.filter (fun p => !p.2.isSigner && !p.2.isWritable)).map Prod.fst

/-- Required signature count of the compiled header. -/
def numRequiredSigs (m : List (Pubkey × KeyMeta)) : Nat :=
  (m.filter (fun p => p.2.isSigner)).length

/-- Position of a key in the static key table (first match). -/
def keyIndex : List Pubkey → Pubkey → Nat
  | [], _ => 0
  | k2 :: rest, k => if k2 = k then 0 else keyIndex rest k + 1

/-- Compile one high-level instruction against the static key table. -/
def compileInstruction (keys : List Pubkey) (ix : TransactionIx) : CompiledIx :=
  { programIdIndex := keyIndex keys ix.programId
    accountKeyIndexes := ix.keys.map (fun am => keyIndex keys am.pubkey)
    data := ix.data }

/-- `TransactionMessage.compileToV0Message()` for messages without address
table lookups. -/
def compileToV0Message (payer : Pubkey) (instructions : List TransactionIx) :
    TxMessage :=
  let metas := compileKeyMetas payer instructions
  let keys := staticAccountKeys metas
  { accountKeys := keys
    numRequiredSignatures := numRequiredSigs metas
    instructions := instructions.map (compileInstruction keys) }

/-- A serialized `VersionedTransaction` as the prepare endpoint returns it:
its message together with the set of keys whose signature slot has been
filled (`new VersionedTransaction(messageV0)` fills none). -/
structure PreparedTransaction where
  message : TxMessage
  signerKeys : List Pubkey
deriving DecidableEq, Repr

/-- `prepareFeeTransaction` after input parsing: from the requested
transfer (sender, recipient, amount in lamports, the source computes
`parseFloat(amount) * LAMPORTS_PER_SOL`), build the user transfer and the
fee-payment transfer to the fee-collection wallet, compile a v0 message
with the sponsor wallet as payer and return it serialized, unsigned by the
sponsor, together with the fee breakdown. -/
def prepareFeeTransaction (cfg : SponsorConfig) (quote : FeeData)
    (senderAddress recipientAddress : Pubkey) (transferAmount : Nat) :
    PreparedTransaction × FeeInfo :=
  let feeInfo := calculateAllFees (transferAmount : ℚ) quote
  let totalFee := feeInfo.totalFeeRequired.toNat
  let transferInstruction := systemTransfer senderAddress recipientAddress transferAmount
  let feeInstruction := systemTransfer senderAddress cfg.feeCollectionAddress totalFee
  let messageV0 := compileToV0Message cfg.feePayerAddress
    [transferInstruction, feeInstruction]
  ({ message := messageV0, signerKeys := [] }, feeInfo)

/-! ## Concrete inputs used by counterexamples and witnesses -/

/-- A sponsor configuration for the concrete runs (sponsor key "S"). -/
def cfgS : SponsorConfig := initSponsorConfig "S"

/-- A quote with gas 5000 lamports and rate 0.5 percent. -/
def quoteHalf : FeeData :=
  { gasFeeLamports := 5000, serviceFeePercentage := 1 / 2, solPriceUsd := none }

/-- A quote with gas 5001 lamports and rate 0.5 percent, so that the
required total (55001) has a fractional 95 percent threshold. -/
def quoteG5001 : FeeData :=
  { gasFeeLamports := 5001, serviceFeePercentage := 1 / 2, solPriceUsd := none }

/-- Keys [S, A, R, SystemProgram], signers S and A; instructions: user
transfer A→R of 10000000, a sponsor-sent transfer S→(index 9, out of
bounds) of 1000000, and fee payment A→S of 60000. -/
def msgSkipsDebit : TxMessage :=
  { accountKeys := ["S", "A", "R", systemProgramId]
    numRequiredSignatures := 2
    instructions :=
      [ ⟨3, [1, 2], transferData 10000000⟩
      , ⟨3, [0, 9], transferData 1000000⟩
      , ⟨3, [1, 0], transferData 60000⟩ ] }

/-- Keys [A, S, SystemProgram] with fee payer A (not the sponsor), and a
sponsor-sent transfer S→A of 5. -/
def msgBadPayer : TxMessage :=
  { accountKeys := ["A", "S", systemProgramId]
    numRequiredSignatures := 1
    instructions := [ ⟨2, [1, 0], transferData 5⟩ ] }

/-- Keys [S, A, R, SystemProgram] with only S required to sign, and a
single user transfer A→R of 100 (no fee payment; A is not a signer). -/
def msgNoSigner : TxMessage :=
  { accountKeys := ["S", "A", "R", systemProgramId]
    numRequiredSignatures := 1
    instructions := [ ⟨3, [1, 2], transferData 100⟩ ] }

/-- Keys [S, A, R, SystemProgram], signers S and A; user transfer A→R of
10000000 and fee payment A→S of 52250 (just below 95 percent of the 55001
total under `quoteG5001`). -/
def msgBoundary : TxMessage :=
  { accountKeys := ["S", "A", "R", systemProgramId]
    numRequiredSignatures := 2
    instructions :=
      [ ⟨3, [1, 2], transferData 10000000⟩
      , ⟨3, [1, 0], transferData 52250⟩ ] }

/-- Keys [S, A, R, B, SystemProgram], signers S and A; user transfer A→R of
10000000 and fee payment B→S of 60000 where B is not a signer. -/
def msgFeeFromB : TxMessage :=
  { accountKeys := ["S", "A", "R", "B", systemProgramId]
    numRequiredSignatures := 2
    instructions :=
      [ ⟨4, [1, 2], transferData 10000000⟩
      , ⟨4, [3, 0], transferData 60000⟩ ] }

/-- Keys [S, A, B, R, SystemProgram], signers S, A and B; two user
transfers A→R of 999999 then B→R of 777, and fee payment A→S of 60000. -/
def msgTwoTransfers : TxMessage :=
  { accountKeys := ["S", "A", "B", "R", systemProgramId]
    numRequiredSignatures := 3
    instructions :=
      [ ⟨4, [1, 3], transferData 999999⟩
      , ⟨4, [2, 3], transferData 777⟩
      , ⟨4, [1, 0], transferData 60000⟩ ] }

/-- The loop state the scan of `msgTwoTransfers` ends in. -/
def stTwoTransfers : ScanState :=
  { transferAmount := 777
    senderPublicKey := some "B"
    recipientPublicKey := some "R"
    feePaymentFound := true
    feePaymentAmount := 60000 }

/-- The loop state the scan of `msgNoSigner` ends in. -/
def stNoSigner : ScanState :=
  { transferAmount := 100
    senderPublicKey := some "A"
    recipientPublicKey := some "R"
    feePaymentFound := false
    feePaymentAmount := 0 }

/-- The loop state the scan of `msgSkipsDebit` ends in. -/
def stSkipsDebit : ScanState :=
  { transferAmount := 10000000
    senderPublicKey := some "A"
    recipientPublicKey := some "R"
    feePaymentFound := true
    feePaymentAmount := 60000 }

/-- The loop state the scan of `msgBoundary` ends in. -/
def stBoundary : ScanState :=
  { transferAmount := 10000000
    senderPublicKey := some "A"
    recipientPublicKey := some "R"
    feePaymentFound := true
    feePaymentAmount := 52250 }

/-- The loop state the scan of `msgFeeFromB` ends in. -/
def stFeeFromB : ScanState :=
  { transferAmount := 10000000
    senderPublicKey := some "A"
    recipientPublicKey := some "R"
    feePaymentFound := true
    feePaymentAmount := 60000 }

/-- Keys [S, A, SystemProgram] with fee payer S and a sponsor-sent
transfer S→A of 7 whose indexes both resolve. -/
def msgDebit : TxMessage :=
  { accountKeys := ["S", "A", systemProgramId]
    numRequiredSignatures := 1
    instructions := [ ⟨2, [0, 1], transferData 7⟩ ] }

/-- Keys [S, A, R, SystemProgram], signers S and A; a single user transfer
A→R of 10000000 and no fee payment. -/
def msgMissing : TxMessage :=
  { accountKeys := ["S", "A", "R", systemProgramId]
    numRequiredSignatures := 2
    instructions := [ ⟨3, [1, 2], transferData 10000000⟩ ] }

/-- The loop state the scan of `msgMissing` ends in. -/
def stMissing : ScanState :=
  { transferAmount := 10000000
    senderPublicKey := some "A"
    recipientPublicKey := some "R"
    feePaymentFound := false
    feePaymentAmount := 0 }

/-! ## Helper lemmas -/

/-- Round trip of the little-endian u64 encoding for in-range values. -/
lemma leU64_encodeLeU64 (n : Nat) (h : n < 2 ^ 64) : leU64 (encodeLeU64 n) = n := by
  simp only [encodeLeU64, leU64]
  omega

/-- Reading back the amount of a `SystemProgram.transfer` payload. -/
lemma extractTransferAmount_transferData (n : Nat) (h : n < 2 ^ 64) :
    extractTransferAmount (transferData n) = n := by
  have hlen : (transferData n).length = 12 := by simp [transferData, encodeLeU64]
  have hdrop : ((transferData n).drop 4).take 8 = encodeLeU64 n := by
    simp [transferData, encodeLeU64]
  rw [extractTransferAmount, if_pos]
  · rw [hdrop, leU64_encodeLeU64 n h]
  · exact ⟨by rw [hlen], by simp [transferData]⟩

/-- After the fee-payer check and the instruction scan succeed, the
controller is the nested fee/signer verification on the final loop
state. -/
lemma sponsorTransaction_post_scan (cfg : SponsorConfig) (quote : FeeData)
    (msg : TxMessage) (st : ScanState)
    (hfp0 : getKey msg 0 = some cfg.feePayerAddress)
    (hscan : scanInstructions cfg msg msg.instructions initScanState = .ok st) :
    sponsorTransaction cfg quote msg =
      if senderIsSigner msg st.senderPublicKey then
        if st.feePaymentFound then
          if (st.feePaymentAmount : ℤ) <
              ⌊((calculateAllFees (st.transferAmount : ℚ) quote).totalFeeRequired : ℚ) * (95 / 100)⌋ then
            (.insufficientFeePayment st.feePaymentAmount
              (calculateAllFees (st.transferAmount : ℚ) quote).totalFeeRequired, [])
          else
            (.submitted st.transferAmount st.feePaymentAmount, [.sponsorSigned, .sentToNetwork])
        else
          (.missingFeePayment (calculateAllFees (st.transferAmount : ℚ) quote).totalFeeRequired, [])
      else (.unsignedSender, []) := by
  unfold sponsorTransaction
  rw [hfp0, hscan]
  simp

/-- Unfolding equation: empty instruction list. -/
lemma scanInstructions_nil (cfg : SponsorConfig) (msg : TxMessage) (st0 : ScanState) :
    scanInstructions cfg msg [] st0 = .ok st0 := rfl

/-- Unfolding equation: one loop step. -/
lemma scanInstructions_cons (cfg : SponsorConfig) (msg : TxMessage)
    (a : CompiledIx) (rest : List CompiledIx) (st0 : ScanState) :
    scanInstructions cfg msg (a :: rest) st0 =
      (match scanInstruction cfg msg st0 a with
       | .error e => .error e
       | .ok st2 => scanInstructions cfg msg rest st2) := rfl

/-- The loop iteration rejects exactly the instructions that
`triggersSponsorDebit` describes, independently of the loop state. -/
lemma scanInstruction_error_iff (cfg : SponsorConfig) (msg : TxMessage)
    (st : ScanState) (ix : CompiledIx) :
    scanInstruction cfg msg st ix = .error () ↔ triggersSponsorDebit cfg msg ix := by
  by_cases hsys : getKey msg ix.programIdIndex = some systemProgramId
  case neg =>
    rcases hpid : getKey msg ix.programIdIndex with _ | pid
    · simp [scanInstruction, triggersSponsorDebit, mentionsSponsorDebit, hpid]
    · have hne : pid ≠ systemProgramId := by
        intro heq
        exact hsys (heq ▸ hpid)
      simp [scanInstruction, triggersSponsorDebit, mentionsSponsorDebit, hpid, hne]
  case pos =>
    by_cases hd : ix.data[0]? = some 2
    case neg =>
      simp [scanInstruction, triggersSponsorDebit, mentionsSponsorDebit, hsys, hd]
    case pos =>
      rcases hs : ix.accountKeyIndexes[0]?.bind (getKey msg) with _ | sender
      · simp [scanInstruction, triggersSponsorDebit, mentionsSponsorDebit, hsys, hd, hs]
      · rcases hr : ix.accountKeyIndexes[1]?.bind (getKey msg) with _ | recipient
        · simp [scanInstruction, triggersSponsorDebit, mentionsSponsorDebit, hsys, hd, hs, hr]
        · by_cases hfp : sender = cfg.feePayerAddress
          · simp [scanInstruction, triggersSponsorDebit, mentionsSponsorDebit,
              hsys, hd, hs, hr, hfp]
          · by_cases hfc : recipient = cfg.feeCollectionAddress <;>
              simp [scanInstruction, triggersSponsorDebit, mentionsSponsorDebit,
                hsys, hd, hs, hr, hfp, hfc]

/-- A triggering instruction anywhere in the list makes the whole scan
reject. -/
lemma scanInstructions_error_of_mem (cfg : SponsorConfig) (msg : TxMessage) :
    ∀ (l : List CompiledIx) (st0 : ScanState) (ix : CompiledIx),
      ix ∈ l → triggersSponsorDebit cfg msg ix →
      scanInstructions cfg msg l st0 = .error () := by
  intro l
  induction l with
  | nil =>
    intro st0 ix h
    cases h
  | cons a rest ih =>
    intro st0 ix hmem htrig
    rw [scanInstructions_cons]
    rcases hx : scanInstruction cfg msg st0 a with e | st1
    · cases e
      rfl
    · rcases List.mem_cons.mp hmem with heq | hmem2
      · subst heq
        rw [(scanInstruction_error_iff cfg msg st0 ix).mpr htrig] at hx
        cases hx
      · exact ih st1 ix hmem2 htrig

/-- Effect of one accepted loop iteration on the user-transfer trackers:
a decoded user transfer overwrites amount and sender, anything else leaves
them unchanged. -/
lemma scanInstruction_ok_updates (cfg : SponsorConfig) (msg : TxMessage)
    (st : ScanState) (ix : CompiledIx) (st2 : ScanState)
    (h : scanInstruction cfg msg st ix = .ok st2) :
    (∃ s r a, decodeUserTransfer cfg msg ix = some (s, r, a) ∧
        st2.transferAmount = a ∧ st2.senderPublicKey = some s) ∨
    (decodeUserTransfer cfg msg ix = none ∧
        st2.transferAmount = st.transferAmount ∧
        st2.senderPublicKey = st.senderPublicKey) := by
  by_cases hsys : getKey msg ix.programIdIndex = some systemProgramId
  case neg =>
    right
    rcases hpid : getKey msg ix.programIdIndex with _ | pid
    · simp only [scanInstruction, hpid, Except.ok.injEq] at h
      subst h
      simp [decodeUserTransfer, decodeTransferIx, hpid]
    · have hne : pid ≠ systemProgramId := by
        intro heq
        exact hsys (heq ▸ hpid)
      simp only [scanInstruction, hpid, hne, if_false, Except.ok.injEq] at h
      subst h
      simp [decodeUserTransfer, decodeTransferIx, hpid, hne]
  case pos =>
    by_cases hd : ix.data[0]? = some 2
    case neg =>
      right
      simp only [scanInstruction, hsys, hd, if_true, if_false, Except.ok.injEq] at h
      subst h
      simp [decodeUserTransfer, decodeTransferIx, hsys, hd]
    case pos =>
      rcases hs : ix.accountKeyIndexes[0]?.bind (getKey msg) with _ | sender
      · right
        simp only [scanInstruction, hsys, hd, hs, if_true, Except.ok.injEq] at h
        subst h
        simp [decodeUserTransfer, decodeTransferIx, hsys, hd, hs]
      · rcases hr : ix.accountKeyIndexes[1]?.bind (getKey msg) with _ | recipient
        · right
          simp only [scanInstruction, hsys, hd, hs, hr, if_true, Except.ok.injEq] at h
          subst h
          simp [decodeUserTransfer, decodeTransferIx, hsys, hd, hs, hr]
        · by_cases hfp : sender = cfg.feePayerAddress
          · simp [scanInstruction, hsys, hd, hs, hr, hfp] at h
          · by_cases hfc : recipient = cfg.feeCollectionAddress
            · right
              simp only [scanInstruction, hsys, hd, hs, hr, if_true, hfp, hfc,
                if_false, Except.ok.injEq] at h
              subst h
              simp [decodeUserTransfer, decodeTransferIx, hsys, hd, hs, hr, hfc]
            · left
              refine ⟨sender, recipient, extractTransferAmount ix.data, ?_, ?_, ?_⟩
              · simp [decodeUserTransfer, decodeTransferIx, hsys, hd, hs, hr, hfc]
              · simp only [scanInstruction, hsys, hd, hs, hr, if_true, hfp, hfc,
                  if_false, Except.ok.injEq] at h
                subst h
                rfl
              · simp only [scanInstruction, hsys, hd, hs, hr, if_true, hfp, hfc,
                  if_false, Except.ok.injEq] at h
                subst h
                rfl

/-- The scan's final amount and sender are the overwrite-fold of the
decoded user transfers. -/
lemma scanInstructions_ok_trackers (cfg : SponsorConfig) (msg : TxMessage) :
    ∀ (l : List CompiledIx) (st0 st : ScanState),
      scanInstructions cfg msg l st0 = .ok st →
      (st.transferAmount, st.senderPublicKey) =
        (l.filterMap (decodeUserTransfer cfg msg)).foldl
          (fun _ t => (t.2.2, some t.1))
          (st0.transferAmount, st0.senderPublicKey) := by
  intro l
  induction l with
  | nil =>
    intro st0 st h
    rw [scanInstructions_nil] at h
    cases h
    simp
  | cons a rest ih =>
    intro st0 st h
    rw [scanInstructions_cons] at h
    rcases hx : scanInstruction cfg msg st0 a with e | st1
    · rw [hx] at h
      cases h
    · rw [hx] at h
      rcases scanInstruction_ok_updates cfg msg st0 a st1 hx with
        ⟨s, r, am, hdec, ha, hs⟩ | ⟨hdec, ha, hs⟩
      · rw [List.filterMap_cons, hdec, List.foldl_cons, ih st1 st h, ha, hs]
      · rw [List.filterMap_cons, hdec, ih st1 st h, ha, hs]

/-- Folding an overwrite function keeps only the last element. -/
lemma foldl_overwrite {α β : Type} (f : α → β) :
    ∀ (l : List α) (init : β),
      l.foldl (fun _ t => f t) init = (l.getLast?).elim init f := by
  intro l
  induction l with
  | nil => intro init; rfl
  | cons a l2 ih =>
    intro init
    cases l2 with
    | nil => rfl
    | cons b l3 =>
      rw [List.foldl_cons, ih (f a), List.getLast?_cons_cons]
      cases hl : (b :: l3).getLast? with
      | none => exact absurd (List.getLast?_eq_none_iff.mp hl) (List.cons_ne_nil b l3)
      | some t => rfl

/-- After any call, the oracle cache holds exactly the returned quote. -/
lemma getCurrentFeeData_cache (g : Nat) (p : Option ℚ) (d : ℚ) (t : Nat)
    (st : OracleState) :
    (getCurrentFeeData g p d t st).2.feeDataCache =
      some (getCurrentFeeData g p d t st).1 := by
  unfold getCurrentFeeData
  rcases hc : st.feeDataCache with _ | cached
  · simp
  · by_cases hfresh : t - st.lastFeeDataUpdate < CACHE_DURATION_MS
    · simp [hfresh, hc]
    · simp [hfresh]

/-- Specialisation of `foldl_overwrite` to the tracker pair. -/
lemma foldl_overwrite_pair (l : List (Pubkey × Pubkey × Nat)) (init : Nat × Option Pubkey) :
    l.foldl (fun _ t => (t.2.2, some t.1)) init =
      (l.getLast?).elim init (fun t => (t.2.2, some t.1)) :=
  foldl_overwrite (fun t => (t.2.2, some t.1)) l init

/-! ## Claim theorems -/

/-- C2. A decoded one-step transaction whose account 0 is absent or is not
the sponsor's key is rejected with `InvalidFeePayer`, whose payload
carries the expected and the received fee payer, and nothing is signed or
submitted. -/
theorem invalid_fee_payer_rejected (cfg : SponsorConfig) (quote : FeeData)
    (msg : TxMessage)
    (h : ∀ k, getKey msg 0 = some k → k ≠ cfg.feePayerAddress) :
    sponsorTransaction cfg quote msg =
      (.invalidFeePayer cfg.feePayerAddress (getKey msg 0), []) := by
  unfold sponsorTransaction
  cases hk : getKey msg 0 with
  | none => simp
  | some k => simp [h k hk]

/-- Witness for C2 at the concrete message whose fee payer is A while the
sponsor is S. -/
theorem invalid_fee_payer_rejected_witness :
    (∀ k, getKey msgBadPayer 0 = some k → k ≠ cfgS.feePayerAddress) ∧
    sponsorTransaction cfgS quoteHalf msgBadPayer =
      (.invalidFeePayer cfgS.feePayerAddress (getKey msgBadPayer 0), []) := by
  have h : ∀ k, getKey msgBadPayer 0 = some k → k ≠ cfgS.feePayerAddress := by
    intro k hk
    rw [show getKey msgBadPayer 0 = some "A" from rfl] at hk
    injection hk with h2
    subst h2
    decide
  exact ⟨h, invalid_fee_payer_rejected cfgS quoteHalf msgBadPayer h⟩

/-- C3. On every run the effect trace is either empty or exactly
sign-then-submit, and it is sign-then-submit precisely on the success
outcome: every rejection happens before the sponsor signs, and signing is
the last step before submission. -/
theorem signing_is_last_step (cfg : SponsorConfig) (quote : FeeData) (msg : TxMessage) :
    ((sponsorTransaction cfg quote msg).2 = [] ∨
     (sponsorTransaction cfg quote msg).2 = [.sponsorSigned, .sentToNetwork]) ∧
    ((∃ a f, (sponsorTransaction cfg quote msg).1 = .submitted a f) ↔
     (sponsorTransaction cfg quote msg).2 = [.sponsorSigned, .sentToNetwork]) := by
  unfold sponsorTransaction
  cases hk : getKey msg 0 with
  | none => simp
  | some fp =>
    by_cases hfp : fp = cfg.feePayerAddress
    · cases hscan : scanInstructions cfg msg msg.instructions initScanState with
      | error e => simp [hfp, hscan]
      | ok st =>
        by_cases hsig : senderIsSigner msg st.senderPublicKey
        · by_cases hfound : st.feePaymentFound
          · by_cases hlt : (st.feePaymentAmount : ℤ) <
                ⌊((calculateAllFees (st.transferAmount : ℚ) quote).totalFeeRequired : ℚ) *
                  (95 / 100)⌋
            · simp [hfp, hscan, hsig, hfound, hlt]
            · simp [hfp, hscan, hsig, hfound, hlt]
          · simp [hfp, hscan, hsig, hfound]
        · simp [hfp, hscan, hsig]
    · simp [hfp]

/-- C6. The fee formulas of the calculator: the service fee is the spec's
`max(ceil(amount * rate / 100), 5000)` for every amount, rate and quote,
the total adds the gas estimate, and at amount 0.01 SOL, rate 0.5 percent,
gas 5000 the returned values are `max(ceil(0.01e9 * 0.005), 5000) = 50000`
and `50000 + 5000`. -/
theorem fee_formula_matches_spec (a r : ℚ) (g : Nat) (p : Option ℚ) :
    (calculateAllFees a
        { gasFeeLamports := g, serviceFeePercentage := r, solPriceUsd := p }).serviceFeeAmount
      = serviceFeeSpec a r ∧
    (calculateAllFees a
        { gasFeeLamports := g, serviceFeePercentage := r, solPriceUsd := p }).totalFeeRequired
      = serviceFeeSpec a r + g ∧
    (calculateAllFees ((1 / 100 : ℚ) * 1000000000) quoteHalf).serviceFeeAmount
      = max ⌈(1 / 100 : ℚ) * 1000000000 * (5 / 1000)⌉ 5000 ∧
    (calculateAllFees ((1 / 100 : ℚ) * 1000000000) quoteHalf).serviceFeeAmount = 50000 ∧
    (calculateAllFees ((1 / 100 : ℚ) * 1000000000) quoteHalf).totalFeeRequired = 50000 + 5000 := by
  refine ⟨?_, ?_, ?_, ?_, ?_⟩
  · simp [calculateAllFees, calculateServiceFee, serviceFeeSpec, mul_div_assoc]
  · simp [calculateAllFees, calculateServiceFee, serviceFeeSpec, mul_div_assoc]
  · norm_num [calculateAllFees, calculateServiceFee, quoteHalf]
  · norm_num [calculateAllFees, calculateServiceFee, quoteHalf]
  · norm_num [calculateAllFees, calculateServiceFee, quoteHalf]

/-- C8. A second oracle call less than five minutes after the cache was
last refreshed returns the identical quote and leaves the cache state
unchanged, whatever the network would have delivered on a refresh. -/
theorem fee_oracle_idempotent (g1 g2 : Nat) (p1 p2 : Option ℚ) (d1 d2 : ℚ)
    (t1 t2 : Nat) (st : OracleState)
    (hfresh : t2 - (getCurrentFeeData g1 p1 d1 t1 st).2.lastFeeDataUpdate <
      CACHE_DURATION_MS) :
    getCurrentFeeData g2 p2 d2 t2 (getCurrentFeeData g1 p1 d1 t1 st).2 =
      ((getCurrentFeeData g1 p1 d1 t1 st).1, (getCurrentFeeData g1 p1 d1 t1 st).2) := by
  have hc := getCurrentFeeData_cache g1 p1 d1 t1 st
  set r := getCurrentFeeData g1 p1 d1 t1 st with hrdef
  unfold getCurrentFeeData
  rw [hc]
  simp [hfresh]

/-- Witness for C8: a cold call at time 1000 followed by a call at time
2000 with different network data. -/
theorem fee_oracle_idempotent_witness :
    2000 - (getCurrentFeeData 5000 none (1 / 2) 1000 ⟨none, 0⟩).2.lastFeeDataUpdate <
      CACHE_DURATION_MS ∧
    getCurrentFeeData 7777 (some 50) (1 / 4) 2000
        (getCurrentFeeData 5000 none (1 / 2) 1000 ⟨none, 0⟩).2 =
      ((getCurrentFeeData 5000 none (1 / 2) 1000 ⟨none, 0⟩).1,
       (getCurrentFeeData 5000 none (1 / 2) 1000 ⟨none, 0⟩).2) :=
  ⟨by decide,
   fee_oracle_idempotent 5000 7777 none (some 50) (1 / 2) (1 / 4) 1000 2000 ⟨none, 0⟩
     (by decide)⟩

/-- C9. The fee-collection address equals the sponsor fee-payer address
for every startup key (both come from the same wallet), so a transfer sent
from the fee-collection address is exactly a sponsor debit and is rejected
by the scan. -/
theorem fee_collection_is_sponsor (k : Pubkey) :
    (initSponsorConfig k).feeCollectionAddress = (initSponsorConfig k).feePayerAddress ∧
    (∀ (msg : TxMessage) (st : ScanState) (ix : CompiledIx),
       getKey msg ix.programIdIndex = some systemProgramId →
       ix.data[0]? = some 2 →
       ix.accountKeyIndexes[0]?.bind (getKey msg) =
         some (initSponsorConfig k).feeCollectionAddress →
       (ix.accountKeyIndexes[1]?.bind (getKey msg)).isSome = true →
       scanInstruction (initSponsorConfig k) msg st ix = .error ()) := by
  refine ⟨rfl, ?_⟩
  intro msg st ix h1 h2 h3 h4
  exact (scanInstruction_error_iff (initSponsorConfig k) msg st ix).mpr ⟨⟨h1, h2, h3⟩, h4⟩

/-- Witness for C9 at sponsor key S and a transfer sent from the
fee-collection address. -/
theorem fee_collection_is_sponsor_witness :
    (cfgS.feeCollectionAddress = cfgS.feePayerAddress ∧
     getKey msgDebit 0 = some cfgS.feeCollectionAddress) ∧
    scanInstruction cfgS msgDebit initScanState ⟨2, [0, 1], transferData 7⟩ = .error () :=
  ⟨⟨(fee_collection_is_sponsor "S").1, by decide⟩,
   (fee_collection_is_sponsor "S").2 msgDebit initScanState ⟨2, [0, 1], transferData 7⟩
     (by decide) (by decide) (by decide) (by decide)⟩

/-- C1 (amended). If the fee-payer slot is the sponsor and some
instruction is a System-Program transfer whose sender resolves to the
sponsor and whose recipient index also resolves, the one-step path rejects
with `UnauthorizedSponsorDebit` (HTTP 403) without signing or submitting,
wherever the instruction sits in the list. -/
theorem sponsor_debit_rejected (cfg : SponsorConfig) (quote : FeeData) (msg : TxMessage)
    (hfp : getKey msg 0 = some cfg.feePayerAddress)
    (hex : ∃ ix ∈ msg.instructions, triggersSponsorDebit cfg msg ix) :
    sponsorTransaction cfg quote msg = (.unauthorizedSponsorDebit, []) ∧
    httpStatus (sponsorTransaction cfg quote msg).1 = 403 := by
  obtain ⟨ix, hmem, ht⟩ := hex
  have herr := scanInstructions_error_of_mem cfg msg msg.instructions initScanState ix hmem ht
  have hmain : sponsorTransaction cfg quote msg = (.unauthorizedSponsorDebit, []) := by
    unfold sponsorTransaction
    rw [hfp]
    simp [herr]
  refine ⟨hmain, ?_⟩
  rw [hmain]
  rfl

/-- Witness for amended C1: a sponsor-sent transfer with resolvable
indexes, placed after the fee-payer check passes. -/
theorem sponsor_debit_rejected_witness :
    (getKey msgDebit 0 = some cfgS.feePayerAddress ∧
     (∃ ix ∈ msgDebit.instructions, triggersSponsorDebit cfgS msgDebit ix)) ∧
    (sponsorTransaction cfgS quoteHalf msgDebit = (.unauthorizedSponsorDebit, []) ∧
     httpStatus (sponsorTransaction cfgS quoteHalf msgDebit).1 = 403) :=
  ⟨⟨by decide, by decide⟩,
   sponsor_debit_rejected cfgS quoteHalf msgDebit (by decide) (by decide)⟩

/-- Counterexample to C1 as stated. First: `msgSkipsDebit` contains a
System-Program transfer whose sender is the sponsor (second instruction),
yet because its recipient index does not resolve the loop `continue`s past
the debit check and the transaction is signed and submitted. Second: with
a wrong fee payer, a resolvable sponsor-debit transfer is reported as
`InvalidFeePayer`, not `UnauthorizedSponsorDebit`. -/
theorem sponsor_debit_scan_counterexample :
    ((∃ ix ∈ msgSkipsDebit.instructions, mentionsSponsorDebit cfgS msgSkipsDebit ix) ∧
     sponsorTransaction cfgS quoteHalf msgSkipsDebit =
       (.submitted 10000000 60000, [.sponsorSigned, .sentToNetwork])) ∧
    ((∃ ix ∈ msgBadPayer.instructions, mentionsSponsorDebit cfgS msgBadPayer ix) ∧
     sponsorTransaction cfgS quoteHalf msgBadPayer =
       (.invalidFeePayer "S" (some "A"), [])) := by
  refine ⟨⟨by decide, ?_⟩, ⟨by decide, by decide⟩⟩
  rw [sponsorTransaction_post_scan cfgS quoteHalf msgSkipsDebit stSkipsDebit
    (by decide) (by decide)]
  have h1 : senderIsSigner msgSkipsDebit stSkipsDebit.senderPublicKey = true := by decide
  have h2 : (calculateAllFees (stSkipsDebit.transferAmount : ℚ) quoteHalf).totalFeeRequired
      = 55000 := by
    norm_num [calculateAllFees, calculateServiceFee, quoteHalf, stSkipsDebit]
  simp only [h1, h2, if_true]
  norm_num [stSkipsDebit]

/-- C4 (amended). After the fee-payer check, the debit scan and the
sender-signer check pass: a missing fee payment rejects with
`MissingFeePayment` carrying the computed total; a payment below
`floor(totalFee * 0.95)` rejects with `InsufficientFeePayment` carrying
the paid amount and the total; and any payment at least `totalFee * 0.95`
passes fee verification and the transaction is signed and submitted. -/
theorem fee_verification_rules (cfg : SponsorConfig) (quote : FeeData) (msg : TxMessage)
    (st : ScanState)
    (hfp : getKey msg 0 = some cfg.feePayerAddress)
    (hscan : scanInstructions cfg msg msg.instructions initScanState = .ok st)
    (hsig : senderIsSigner msg st.senderPublicKey = true) :
    (st.feePaymentFound = false →
       sponsorTransaction cfg quote msg =
         (.missingFeePayment (calculateAllFees (st.transferAmount : ℚ) quote).totalFeeRequired,
          [])) ∧
    (st.feePaymentFound = true →
       (st.feePaymentAmount : ℤ) <
         ⌊((calculateAllFees (st.transferAmount : ℚ) quote).totalFeeRequired : ℚ) * (95 / 100)⌋ →
       sponsorTransaction cfg quote msg =
         (.insufficientFeePayment st.feePaymentAmount
            (calculateAllFees (st.transferAmount : ℚ) quote).totalFeeRequired, [])) ∧
    (st.feePaymentFound = true →
       ((calculateAllFees (st.transferAmount : ℚ) quote).totalFeeRequired : ℚ) * (95 / 100) ≤
         (st.feePaymentAmount : ℚ) →
       sponsorTransaction cfg quote msg =
         (.submitted st.transferAmount st.feePaymentAmount,
          [.sponsorSigned, .sentToNetwork])) := by
  rw [sponsorTransaction_post_scan cfg quote msg st hfp hscan, hsig]
  refine ⟨?_, ?_, ?_⟩
  · intro hnf
    rw [hnf]
    simp
  · intro hf hlt
    rw [hf]
    simp [hlt]
  · intro hf hge
    rw [hf]
    have hnl : ¬ ((st.feePaymentAmount : ℤ) <
        ⌊((calculateAllFees (st.transferAmount : ℚ) quote).totalFeeRequired : ℚ) * (95 / 100)⌋) := by
      rw [not_lt]
      have h1 := Int.floor_le_floor hge
      rwa [Int.floor_natCast] at h1
    simp [hnl]

/-- Witness for amended C4 at a transaction with a signing sender and no
fee payment. -/
theorem fee_verification_rules_witness :
    (getKey msgMissing 0 = some cfgS.feePayerAddress ∧
     scanInstructions cfgS msgMissing msgMissing.instructions initScanState = .ok stMissing ∧
     senderIsSigner msgMissing stMissing.senderPublicKey = true) ∧
    ((stMissing.feePaymentFound = false →
       sponsorTransaction cfgS quoteHalf msgMissing =
         (.missingFeePayment
            (calculateAllFees (stMissing.transferAmount : ℚ) quoteHalf).totalFeeRequired, [])) ∧
     (stMissing.feePaymentFound = true →
       (stMissing.feePaymentAmount : ℤ) <
         ⌊((calculateAllFees (stMissing.transferAmount : ℚ) quoteHalf).totalFeeRequired : ℚ) *
           (95 / 100)⌋ →
       sponsorTransaction cfgS quoteHalf msgMissing =
         (.insufficientFeePayment stMissing.feePaymentAmount
            (calculateAllFees (stMissing.transferAmount : ℚ) quoteHalf).totalFeeRequired, [])) ∧
     (stMissing.feePaymentFound = true →
       ((calculateAllFees (stMissing.transferAmount : ℚ) quoteHalf).totalFeeRequired : ℚ) *
           (95 / 100) ≤ (stMissing.feePaymentAmount : ℚ) →
       sponsorTransaction cfgS quoteHalf msgMissing =
         (.submitted stMissing.transferAmount stMissing.feePaymentAmount,
          [.sponsorSigned, .sentToNetwork]))) :=
  ⟨⟨by decide, by decide, by decide⟩,
   fee_verification_rules cfgS quoteHalf msgMissing stMissing (by decide) (by decide) (by decide)⟩

/-- Counterexample to C4 as stated. First: `msgNoSigner` passes the
fee-payer and sponsor-debit checks and has no fee payment, yet it is
rejected with `UnsignedSender`, not `MissingFeePayment` (the claim omits
the sender-signer gate). Second: under `quoteG5001` the total is 55001 and
the payment 52250 is strictly below `totalFee * 0.95 = 52250.95`, yet the
transaction is accepted and submitted because the code compares against
`floor(totalFee * 0.95) = 52250`. -/
theorem fee_thresholds_counterexample :
    (getKey msgNoSigner 0 = some cfgS.feePayerAddress ∧
     scanInstructions cfgS msgNoSigner msgNoSigner.instructions initScanState = .ok stNoSigner ∧
     stNoSigner.feePaymentFound = false ∧
     sponsorTransaction cfgS quoteHalf msgNoSigner = (.unsignedSender, [])) ∧
    ((52250 : ℚ) <
       ((calculateAllFees (10000000 : ℚ) quoteG5001).totalFeeRequired : ℚ) * (95 / 100) ∧
     sponsorTransaction cfgS quoteG5001 msgBoundary =
       (.submitted 10000000 52250, [.sponsorSigned, .sentToNetwork])) := by
  refine ⟨⟨by decide, by decide, by decide, ?_⟩, ⟨?_, ?_⟩⟩
  · rw [sponsorTransaction_post_scan cfgS quoteHalf msgNoSigner stNoSigner
      (by decide) (by decide)]
    have h1 : senderIsSigner msgNoSigner stNoSigner.senderPublicKey = false := by decide
    rw [h1]
    simp
  · norm_num [calculateAllFees, calculateServiceFee, quoteG5001]
  · rw [sponsorTransaction_post_scan cfgS quoteG5001 msgBoundary stBoundary
      (by decide) (by decide)]
    have h1 : senderIsSigner msgBoundary stBoundary.senderPublicKey = true := by decide
    have h2 : (calculateAllFees (stBoundary.transferAmount : ℚ) quoteG5001).totalFeeRequired
        = 55001 := by
      norm_num [calculateAllFees, calculateServiceFee, quoteG5001, stBoundary]
    simp only [h1, h2, if_true]
    norm_num [stBoundary]

/-- C5 (amended). After the fee-payer check and the debit scan, it is the
sender of the last recorded user (non-fee) transfer that must be marked a
signer: when none was recorded or it is not a signer, the engine rejects
with `UnsignedSender` and performs no effect. The sender of the
fee-payment transfer itself is not checked. -/
theorem unsigned_sender_rejected (cfg : SponsorConfig) (quote : FeeData) (msg : TxMessage)
    (st : ScanState)
    (hfp : getKey msg 0 = some cfg.feePayerAddress)
    (hscan : scanInstructions cfg msg msg.instructions initScanState = .ok st)
    (hsig : senderIsSigner msg st.senderPublicKey = false) :
    sponsorTransaction cfg quote msg = (.unsignedSender, []) := by
  rw [sponsorTransaction_post_scan cfg quote msg st hfp hscan, hsig]
  simp

/-- Witness for amended C5 at a transaction whose user-transfer sender is
not a signer. -/
theorem unsigned_sender_rejected_witness :
    (getKey msgNoSigner 0 = some cfgS.feePayerAddress ∧
     scanInstructions cfgS msgNoSigner msgNoSigner.instructions initScanState = .ok stNoSigner ∧
     senderIsSigner msgNoSigner stNoSigner.senderPublicKey = false) ∧
    sponsorTransaction cfgS quoteHalf msgNoSigner = (.unsignedSender, []) :=
  ⟨⟨by decide, by decide, by decide⟩,
   unsigned_sender_rejected cfgS quoteHalf msgNoSigner stNoSigner
     (by decide) (by decide) (by decide)⟩

/-- Counterexample to C5 as stated: in `msgFeeFromB` the fee payment is
sent by B, who is not marked as a signer, yet the engine does not reject
with `UnsignedSender` — it signs and submits, because only the
user-transfer sender A is checked. -/
theorem unsigned_sender_counterexample :
    ((⟨4, [3, 0], transferData 60000⟩ : CompiledIx) ∈ msgFeeFromB.instructions ∧
     decodeTransferIx msgFeeFromB ⟨4, [3, 0], transferData 60000⟩ =
       some ("B", cfgS.feeCollectionAddress, 60000) ∧
     senderIsSigner msgFeeFromB (some "B") = false) ∧
    sponsorTransaction cfgS quoteHalf msgFeeFromB =
      (.submitted 10000000 60000, [.sponsorSigned, .sentToNetwork]) := by
  refine ⟨⟨by decide, by decide, by decide⟩, ?_⟩
  rw [sponsorTransaction_post_scan cfgS quoteHalf msgFeeFromB stFeeFromB
    (by decide) (by decide)]
  have h1 : senderIsSigner msgFeeFromB stFeeFromB.senderPublicKey = true := by decide
  have h2 : (calculateAllFees (stFeeFromB.transferAmount : ℚ) quoteHalf).totalFeeRequired
      = 55000 := by
    norm_num [calculateAllFees, calculateServiceFee, quoteHalf, stFeeFromB]
  simp only [h1, h2, if_true]
  norm_num [stFeeFromB]

/-- C10. When the scan completes without a debit rejection, the amount
later fed to the fee calculator and the sender later checked for a
signature come from the last user (non-fee) transfer only; earlier user
transfers are overwritten. -/
theorem user_transfer_last_wins (cfg : SponsorConfig) (msg : TxMessage) (st : ScanState)
    (hscan : scanInstructions cfg msg msg.instructions initScanState = .ok st) :
    st.transferAmount = ((userTransfers cfg msg).getLast?).elim 0 (fun t => t.2.2) ∧
    st.senderPublicKey = ((userTransfers cfg msg).getLast?).elim none (fun t => some t.1) := by
  have h := scanInstructions_ok_trackers cfg msg msg.instructions initScanState st hscan
  have h2 := foldl_overwrite_pair (msg.instructions.filterMap (decodeUserTransfer cfg msg))
    (initScanState.transferAmount, initScanState.senderPublicKey)
  have hcomb := h.trans h2
  rw [show msg.instructions.filterMap (decodeUserTransfer cfg msg) = userTransfers cfg msg
      from rfl] at hcomb
  cases hl : (userTransfers cfg msg).getLast? with
  | none =>
    rw [hl] at hcomb
    simp only [Option.elim, initScanState, Prod.mk.injEq] at hcomb
    exact ⟨hcomb.1, hcomb.2⟩
  | some t =>
    rw [hl] at hcomb
    simp only [Option.elim, Prod.mk.injEq] at hcomb
    exact ⟨hcomb.1, hcomb.2⟩

/-- Witness for C10: two user transfers (999999 then 777) — the scan ends
with the second one's amount and sender. -/
theorem user_transfer_last_wins_witness :
    scanInstructions cfgS msgTwoTransfers msgTwoTransfers.instructions initScanState =
      .ok stTwoTransfers ∧
    (stTwoTransfers.transferAmount =
       ((userTransfers cfgS msgTwoTransfers).getLast?).elim 0 (fun t => t.2.2) ∧
     stTwoTransfers.senderPublicKey =
       ((userTransfers cfgS msgTwoTransfers).getLast?).elim none (fun t => some t.1)) :=
  ⟨by decide, user_transfer_last_wins cfgS msgTwoTransfers stTwoTransfers (by decide)⟩

/-- C7. For a prepare-step request with pairwise distinct sender,
recipient and sponsor addresses (and valid u64 amounts), the returned
serialized transaction decodes to exactly two System-Program transfers —
the requested transfer from sender to recipient and a transfer of the
computed total fee from sender to the fee-collection address — its fee
payer (account 0) is the sponsor's key, and no signature slot is filled,
in particular not the sponsor's. -/
theorem prepare_builds_sponsored_fee_transaction (spk sender recipient : Pubkey)
    (quote : FeeData) (amt : Nat)
    (h1 : sender ≠ spk) (h2 : recipient ≠ spk) (h3 : sender ≠ recipient)
    (h4 : sender ≠ systemProgramId) (h5 : recipient ≠ systemProgramId)
    (h6 : spk ≠ systemProgramId)
    (hamt : amt < 2 ^ 64)
    (hfee : (calculateAllFees (amt : ℚ) quote).totalFeeRequired.toNat < 2 ^ 64) :
    ((prepareFeeTransaction (initSponsorConfig spk) quote sender recipient
        amt).1.message.instructions.map
        (decodeTransferIx
          (prepareFeeTransaction (initSponsorConfig spk) quote sender recipient amt).1.message)) =
      [some (sender, recipient, amt),
       some (sender, (initSponsorConfig spk).feeCollectionAddress,
         (calculateAllFees (amt : ℚ) quote).totalFeeRequired.toNat)] ∧
    getKey (prepareFeeTransaction (initSponsorConfig spk) quote sender recipient amt).1.message 0
      = some (initSponsorConfig spk).feePayerAddress ∧
    (prepareFeeTransaction (initSponsorConfig spk) quote sender recipient amt).1.signerKeys
      = [] := by
  have h1s : spk ≠ sender := h1.symm
  have h2s : spk ≠ recipient := h2.symm
  have h3s : recipient ≠ sender := h3.symm
  have h4s : systemProgramId ≠ sender := h4.symm
  have h5s : systemProgramId ≠ recipient := h5.symm
  have h6s : systemProgramId ≠ spk := h6.symm
  have hmsg : (prepareFeeTransaction (initSponsorConfig spk) quote sender recipient
      amt).1.message =
      { accountKeys := [spk, sender, recipient, systemProgramId]
        numRequiredSignatures := 2
        instructions :=
          [ ⟨3, [1, 2], transferData amt⟩
          , ⟨3, [1, 0],
              transferData (calculateAllFees (amt : ℚ) quote).totalFeeRequired.toNat⟩ ] } := by
    simp [prepareFeeTransaction, compileToV0Message, compileKeyMetas, upsertKeyMeta,
      systemTransfer, staticAccountKeys, numRequiredSigs, compileInstruction, keyIndex,
      initSponsorConfig, h1, h2, h3, h4, h5, h6, h1s, h2s, h3s, h4s, h5s, h6s]
  refine ⟨?_, ?_, ?_⟩
  · rw [hmsg]
    simp [decodeTransferIx, getKey,
      show ∀ n, (transferData n)[0]? = some 2 from fun n => rfl,
      extractTransferAmount_transferData amt hamt,
      extractTransferAmount_transferData _ hfee, initSponsorConfig]
  · rw [hmsg]
    simp [getKey, initSponsorConfig]
  · simp [prepareFeeTransaction]

/-- Witness for C7 at sponsor S, sender A, recipient R, amount 0.01 SOL
and the 0.5 percent quote. -/
theorem prepare_builds_sponsored_fee_transaction_witness :
    ("A" ≠ "S" ∧ (10000000 : Nat) < 2 ^ 64 ∧
     (calculateAllFees ((10000000 : Nat) : ℚ) quoteHalf).totalFeeRequired.toNat < 2 ^ 64) ∧
    (((prepareFeeTransaction (initSponsorConfig "S") quoteHalf "A" "R"
        10000000).1.message.instructions.map
        (decodeTransferIx
          (prepareFeeTransaction (initSponsorConfig "S") quoteHalf "A" "R" 10000000).1.message)) =
      [some ("A", "R", 10000000),
       some ("A", (initSponsorConfig "S").feeCollectionAddress,
         (calculateAllFees ((10000000 : Nat) : ℚ) quoteHalf).totalFeeRequired.toNat)] ∧
    getKey (prepareFeeTransaction (initSponsorConfig "S") quoteHalf "A" "R"
        10000000).1.message 0 = some (initSponsorConfig "S").feePayerAddress ∧
    (prepareFeeTransaction (initSponsorConfig "S") quoteHalf "A" "R"
        10000000).1.signerKeys = []) :=
  ⟨⟨by decide, by decide,
    by norm_num [calculateAllFees, calculateServiceFee, quoteHalf]⟩,
   prepare_builds_sponsored_fee_transaction "S" "A" "R" quoteHalf 10000000
     (by decide) (by decide) (by decide) (by decide) (by decide) (by decide) (by decide)
     (by norm_num [calculateAllFees, calculateServiceFee, quoteHalf])⟩

end SponsorEngine




